import Mathlib

/-!
# Verification of `update_sitemap.py`

A shallow embedding of the sitemap-reconciliation script
(`src/update_sitemap.py`) and proofs of its specified properties.

The script parses an existing `sitemap.xml`, resolves a last-modification
date for each `<url>` entry (from `git log`, with a filesystem fallback),
rewrites `lastmod` / `priority` / `changefreq` fields from static tables,
and serializes the document back through a temporary file that is atomically
moved over the original.

External collaborators (the `git` subprocess, the filesystem clock and
`strftime`, the XML parser) are modelled by explicit data: a `GitOutcome`
describes what the subprocess invocation did, an `FsEnv` carries the calendar
dates the filesystem/clock would report, and XML elements are records of
optional elements with optional text, exactly as `xml.etree.ElementTree`
exposes them (`find` returns the element or `None`; `.text` is a string or
`None`).
-/

/-! ## XML text escaping (`xml.sax.saxutils.escape`, used at lines 213-216)

`saxutils.escape(data)` performs `data.replace("&", "&amp;")`, then replaces
`"<"` by `"&lt;"` and `">"` by `"&gt;"`, single-pass left-to-right each time.
Since the replacement of a single character never introduces one of the other
replaced characters (and `replace` never rescans its own output), the
composite is the character-by-character map below. Note `escape` does NOT
touch `"` or the apostrophe. -/

/-- The apostrophe character (codepoint 39). -/
def aposChar : Char := Char.ofNat 39

/-! ### Python string primitives

`str.strip()` and `str.split(...)` are modelled on character lists with
structural recursion, following CPython semantics. -/

/-- Python whitespace as used by `str.strip()` / `str.split()` with no
arguments: space, tab, newline, carriage return, vertical tab, form feed. -/
def pyIsSpace (c : Char) : Bool :=
  c = ' ' || c = '\t' || c = '\n' || c = '\x0d' || c = '\x0b' || c = '\x0c'

/-- Python `str.strip()` on a character list: drop leading and trailing
whitespace. -/
def pyStripL (l : List Char) : List Char :=
  ((l.dropWhile pyIsSpace).reverse.dropWhile pyIsSpace).reverse

/-- Python `str.strip()`. -/
def pyStrip (s : String) : String := ⟨pyStripL s.data⟩

/-- Worker for Python `str.split(sep)` (for a non-empty `sep`): scan left to
right; `skip` counts separator characters still to be consumed after a
match; `acc` holds the current chunk reversed. -/
def splitSepGo (sep : List Char) : List Char → Nat → List Char → List (List Char)
  | [], _, acc => [acc.reverse]
  | _ :: rest, skip + 1, acc => splitSepGo sep rest skip acc
  | c :: rest, 0, acc =>
    if sep.isPrefixOf (c :: rest) then
      acc.reverse :: splitSepGo sep rest (sep.length - 1) []
    else splitSepGo sep rest 0 (c :: acc)

/-- Python `str.split(sep)` for a non-empty separator: the chunks between
leftmost non-overlapping occurrences of `sep`. -/
def pySplitSep (sep l : List Char) : List (List Char) :=
  splitSepGo sep l 0 []

/-- Expansion of one character under `saxutils.escape`. -/
def escapeCharL (c : Char) : List Char :=
  if c = '&' then ['&', 'a', 'm', 'p', ';']
  else if c = '<' then ['&', 'l', 't', ';']
  else if c = '>' then ['&', 'g', 't', ';']
  else [c]

/-- `saxutils.escape` on a character list. -/
def escapeL (l : List Char) : List Char := (l.map escapeCharL).flatten

/-- `saxutils.escape` on a string (entities `&amp;` `&lt;` `&gt;` only). -/
def escape (s : String) : String := ⟨escapeL s.data⟩

/-- Entity decoding as performed by an XML parser reading text content
back in: the five predefined entities are decoded, everything else is
kept verbatim. -/
def unescapeGo : List Char → Nat → List Char
  | [], _ => []
  | _ :: rest, skip + 1 => unescapeGo rest skip
  | c :: rest, 0 =>
    if c = '&' then
      if ['a', 'm', 'p', ';'].isPrefixOf rest then '&' :: unescapeGo rest 4
      else if ['l', 't', ';'].isPrefixOf rest then '<' :: unescapeGo rest 3
      else if ['g', 't', ';'].isPrefixOf rest then '>' :: unescapeGo rest 3
      else if ['q', 'u', 'o', 't', ';'].isPrefixOf rest then '"' :: unescapeGo rest 5
      else if ['a', 'p', 'o', 's', ';'].isPrefixOf rest then aposChar :: unescapeGo rest 5
      else '&' :: unescapeGo rest 0
    else c :: unescapeGo rest 0

/-- Entity decoding on a character list: at an ampersand, the longest
matching predefined entity is decoded (`skip` consumes the remaining
characters of a decoded entity). -/
def unescapeL (l : List Char) : List Char := unescapeGo l 0

/-- Entity decoding on strings. -/
def unescape (s : String) : String := ⟨unescapeL s.data⟩

/-! ## Calendar dates and the date format of `strftime`

`get_file_lastmod` formats `datetime.fromtimestamp(mtime)` /
`datetime.now()` with the format string `%Y-%m-%d`.  The timestamp-to-calendar
conversion is the filesystem/clock collaborator (excluded by the spec), so
the environment supplies a calendar `Date` directly; formatting is modelled
exactly: `%Y` renders the 4-digit year, `%m` and `%d` zero-pad to width 2.
The rendering agrees with `strftime` for any real calendar date
(`1000 ≤ year ≤ 9999`, `1 ≤ month ≤ 12`, `1 ≤ day ≤ 31`). -/

structure Date where
  year : Nat
  month : Nat
  day : Nat
  deriving DecidableEq

/-- A calendar date as produced by `datetime.fromtimestamp` / `datetime.now`. -/
def Date.valid (d : Date) : Prop :=
  1000 ≤ d.year ∧ d.year ≤ 9999 ∧ 1 ≤ d.month ∧ d.month ≤ 12 ∧ 1 ≤ d.day ∧ d.day ≤ 31

instance (d : Date) : Decidable d.valid := by unfold Date.valid; infer_instance

/-- The decimal digit character for `n % 10`. -/
def digitChar (n : Nat) : Char := Char.ofNat (48 + n % 10)

/-- Width-2 zero-padded decimal rendering (`%m`, `%d`), for `n ≤ 99`. -/
def format2 (n : Nat) : String := ⟨[digitChar (n / 10), digitChar n]⟩

/-- Width-4 decimal rendering (`%Y`), for `1000 ≤ n ≤ 9999`. -/
def format4 (n : Nat) : String :=
  ⟨[digitChar (n / 1000), digitChar (n / 100), digitChar (n / 10), digitChar n]⟩

/-- The date format `%Y-%m-%d` on a calendar date. -/
def Date.format (d : Date) : String :=
  format4 d.year ++ "-" ++ format2 d.month ++ "-" ++ format2 d.day

/-- Recognizer for the `YYYY-MM-DD` shape: ten characters, digits in
positions 0-3, 5-6 and 8-9, dashes in positions 4 and 7. -/
def isYYYYMMDD (s : String) : Bool :=
  match s.data with
  | [y1, y2, y3, y4, s1, m1, m2, s2, d1, d2] =>
    y1.isDigit && y2.isDigit && y3.isDigit && y4.isDigit && s1 = '-' &&
    m1.isDigit && m2.isDigit && s2 = '-' && d1.isDigit && d2.isDigit
  | _ => false

/-! ## Model of `get_git_lastmod` (lines 48-77)

The subprocess invocation of git log with check=True has three observable
outcomes, modelled by `GitOutcome`: the command succeeded and produced
`stdout` (`success`), it exited non-zero so check=True raised
(`calledProcessError`), or the git executable was not found
(`fileNotFound`). -/

inductive GitOutcome where
  | success (stdout : String)
  | calledProcessError
  | fileNotFound
  deriving DecidableEq

/-- Line 67, `result.stdout.strip().split()[0]`: the first
whitespace-delimited token of the stripped output (Python `str.split()`
splits on whitespace runs, so on an already-stripped string the first token
is the leading run of non-whitespace characters). -/
def firstToken (s : String) : String :=
  ⟨(pyStripL s.data).takeWhile (fun c => ¬ pyIsSpace c)⟩

/-- Lines 48-77: returns the pair (date_string, is_tracked); the date is the
first token of the stripped stdout when non-empty, (None, False) on empty
output or a CalledProcessError, (None, None) when git is unavailable. -/
def get_git_lastmod (out : GitOutcome) : Option String × Option Bool :=
  match out with
  | .success stdout =>
    if pyStripL stdout.data ≠ [] then (some (firstToken stdout), some true)
    else (none, some false)
  | .calledProcessError => (none, some false)
  | .fileNotFound => (none, none)

/-! ## Model of `get_file_lastmod` (lines 80-89) -/

/-- What the filesystem says about the template file: it exists and its
mtime converts to the given calendar date, it does not exist, or reading
its metadata raises OSError. -/
inductive FsState where
  | present (mtimeDate : Date)
  | absent
  | oserror
  deriving DecidableEq

/-- The filesystem/clock collaborator for one lookup: the file state of the
template file and the current date (`datetime.now()`). -/
structure FsEnv where
  state : FsState
  today : Date
  deriving DecidableEq

/-- Lines 80-89: the file mtime formatted as a date when the file exists,
the current date when it is absent or the read raises OSError. -/
def get_file_lastmod (env : FsEnv) : String :=
  match env.state with
  | .present d => d.format
  | .absent => env.today.format
  | .oserror => env.today.format

/-! ## The static tables (lines 27-45)

Python dict literals; a duplicate key in the literal keeps the LAST value
(`PRIORITY_MAP` and `CHANGEFREQ_MAP` both repeat the key "/page_route").
The priority values are floats whose `str()` is taken at lines 175/178; the
table stores those rendered strings (`str(1.0)` is "1.0", etc.). -/

/-- Python dict-literal semantics: lookup returns the value of the last
binding of the key, or `None`. -/
def dictOf (l : List (String × String)) : String → Option String :=
  fun k => (l.reverse.find? (fun p => p.1 = k)).map (·.2)

/-- Lines 27-29. -/
def ROUTE_TO_FILE : String → Option String :=
  dictOf [("/", "templates/index.html")]

/-- Lines 32-36 (duplicate key "/page_route": 0.9 then 0.8, last wins). -/
def PRIORITY_MAP : String → Option String :=
  dictOf [("/", "1.0"), ("/page_route", "0.9"), ("/page_route", "0.8")]

/-- Lines 39-45 (duplicate key "/page_route" four times, last wins). -/
def CHANGEFREQ_MAP : String → Option String :=
  dictOf [("/", "weekly"), ("/page_route", "weekly"), ("/page_route", "daily"),
          ("/page_route", "monthly"), ("/page_route", "yearly")]

/-! ## The document model

A `<url>` element as ElementTree exposes it to the script: each child
element (`loc`, `lastmod`, `changefreq`, `priority`) is either absent
(`find` returns None, outer `none`) or present with a text that is itself
None or a string (inner `Option String`). -/

structure UrlEntry where
  loc : Option (Option String)
  lastmod : Option (Option String)
  changefreq : Option (Option String)
  priority : Option (Option String)
  deriving DecidableEq

/-! ## The update loop (lines 110-187) -/

/-- Lines 117-120: the path extracted from the (already stripped) URL.
Python: `path = url_path.split("yourdomainname.com")[1] or "/"` when the
domain substring occurs, otherwise the entry is skipped (`none`). The
`or "/"` turns an empty remainder into the root path. -/
def extractPath (urlPath : String) : Option String :=
  match pySplitSep "yourdomainname.com".data urlPath.data with
  | _ :: second :: _ => some (if second = [] then "/" else ⟨second⟩)
  | _ => none

/-- The external world for one entry's date resolution: the git outcome for
its template file and the filesystem/clock state. -/
structure EntryEnv where
  git : GitOutcome
  fs : FsEnv
  deriving DecidableEq

/-- Lines 130-151: the resolved `lastmod_date` and the `source` tag.
Filesystem mode never consults git; git mode falls back to the filesystem
date when the git date is absent, with a tag naming the failure mode. -/
def resolveLastmod (useFilesystem : Bool) (ev : EntryEnv) : String × String :=
  if useFilesystem then (get_file_lastmod ev.fs, "filesystem")
  else
    match get_git_lastmod ev.git with
    | (some d, _) => (d, "git")
    | (none, some false) => (get_file_lastmod ev.fs, "filesystem (not in git)")
    | (none, none) => (get_file_lastmod ev.fs, "filesystem (git unavailable)")
    | (none, some true) => (get_file_lastmod ev.fs, "filesystem")

/-- Lines 153-168: set (or create) the `lastmod` element's text and report
the counter increment — 1 when the element was created, or when it existed
and its old text differs from the new date. -/
def updateLastmod (e : UrlEntry) (d : String) : UrlEntry × Nat :=
  match e.lastmod with
  | some oldText =>
    ({ e with lastmod := some (some d) }, if oldText ≠ some d then 1 else 0)
  | none => ({ e with lastmod := some (some d) }, 1)

/-- Lines 170-178: create the `priority` element (counted) when absent and
the path is mapped; overwrite its text (not counted) when present and the
path is mapped; otherwise leave the entry alone. -/
def updatePriority (e : UrlEntry) (path : String) : UrlEntry × Nat :=
  match e.priority, PRIORITY_MAP path with
  | none, some v => ({ e with priority := some (some v) }, 1)
  | some _, some v => ({ e with priority := some (some v) }, 0)
  | _, none => (e, 0)

/-- Lines 180-187: same create-or-overwrite rule for `changefreq`. -/
def updateChangefreq (e : UrlEntry) (path : String) : UrlEntry × Nat :=
  match e.changefreq, CHANGEFREQ_MAP path with
  | none, some v => ({ e with changefreq := some (some v) }, 1)
  | some _, some v => ({ e with changefreq := some (some v) }, 0)
  | _, none => (e, 0)

/-- One iteration of the loop at lines 110-187 on one `<url>` element.
Returns the updated entry, the counter increment and the number of warnings
printed, or `Except.error` for the `AttributeError` raised at line 115 when
the `<loc>` element exists but its text is None (`None.strip()`).
A missing `<loc>` element (line 112), a loc without the domain substring
(line 120) and an unmapped path (lines 124-126, one warning) are all
skipped unchanged. -/
def processEntry (useFilesystem : Bool) (genv : String → EntryEnv) (e : UrlEntry) :
    Except Unit (UrlEntry × Nat × Nat) :=
  match e.loc with
  | none => .ok (e, 0, 0)
  | some none => .error ()
  | some (some locText) =>
    match extractPath (pyStrip locText) with
    | none => .ok (e, 0, 0)
    | some path =>
      match ROUTE_TO_FILE path with
      | none => .ok (e, 0, 1)
      | some file =>
        let d := (resolveLastmod useFilesystem (genv file)).1
        let (e1, c1) := updateLastmod e d
        let (e2, c2) := updatePriority e1 path
        let (e3, c3) := updateChangefreq e2 path
        .ok (e3, c1 + c2 + c3, 0)

/-- The whole loop: entries processed in document order, aggregating the
update counter and warnings; the first `AttributeError` aborts the run
(nothing is written). -/
def processEntries (useFilesystem : Bool) (genv : String → EntryEnv) :
    List UrlEntry → Except Unit (List UrlEntry × Nat × Nat)
  | [] => .ok ([], 0, 0)
  | e :: es => do
    let (e1, c, w) ← processEntry useFilesystem genv e
    let (es1, cs, ws) ← processEntries useFilesystem genv es
    .ok (e1 :: es1, c + cs, w + ws)

/-! ## Serialization (lines 189-228) -/

/-- A `<url>` block as written to the output file: the text written between
the `loc` tags, and the optional `lastmod` / `changefreq` / `priority`
lines with their text. -/
structure EmittedUrl where
  loc : String
  lastmod : Option String
  changefreq : Option String
  priority : Option String
  deriving DecidableEq

/-- Lines 214-216: the text written for an optional field — present exactly
when the element exists and its text is truthy (not None, not empty), in
which case it is the escaped text. -/
def emitField (f : Option (Option String)) : Option String :=
  match f with
  | some (some t) => if t = "" then none else some (escape t)
  | _ => none

/-- Lines 203-226: one `<url>` block, or `none` when the `<loc>` element is
missing (line 209-210, skipped). Line 213: the loc text is the escaped text
when truthy, the empty string otherwise. -/
def serializeEntry (e : UrlEntry) : Option EmittedUrl :=
  match e.loc with
  | none => none
  | some locTextOpt =>
    some { loc := match locTextOpt with
                  | some t => if t = "" then "" else escape t
                  | none => ""
           lastmod := emitField e.lastmod
           changefreq := emitField e.changefreq
           priority := emitField e.priority }

/-- The sequence of `<url>` blocks written between the urlset tags. -/
def serializeDoc (es : List UrlEntry) : List EmittedUrl :=
  es.filterMap serializeEntry

/-- The exact text of one `<url>` block (lines 218-226). -/
def renderUrl (u : EmittedUrl) : String :=
  "    <url>\n" ++
  "        <loc>" ++ u.loc ++ "</loc>\n" ++
  (match u.lastmod with
   | some t => "        <lastmod>" ++ t ++ "</lastmod>\n"
   | none => "") ++
  (match u.changefreq with
   | some t => "        <changefreq>" ++ t ++ "</changefreq>\n"
   | none => "") ++
  (match u.priority with
   | some t => "        <priority>" ++ t ++ "</priority>\n"
   | none => "") ++
  "    </url>\n"

/-- The full document text written to the temporary file (lines 200-228). -/
def renderDoc (us : List EmittedUrl) : String :=
  "<?xml version=\"1.0\" encoding=\"UTF-8\"?>\n" ++
  "<urlset xmlns=\"http://www.sitemaps.org/schemas/sitemap/0.9\">\n" ++
  String.join (us.map renderUrl) ++
  "</urlset>\n"

/-- The in-memory part of `update_sitemap` (lines 100-228): run the update
loop over the parsed entries, then serialize the mutated tree. Returns the
emitted `<url>` blocks and the final update counter, or an error when the
loop raised (in which case nothing at all is written). -/
def update_sitemap (useFilesystem : Bool) (genv : String → EntryEnv)
    (es : List UrlEntry) : Except Unit (List EmittedUrl × Nat) := do
  let (es1, c, _w) ← processEntries useFilesystem genv es
  .ok (serializeDoc es1, c)

/-! ## Atomic persistence (lines 189-239)

The filesystem world is the content of the sitemap path and of the
temporary file (when one exists in the target directory).  The temporary
file is created with delete=False, so it survives its `with` block; the
cleanup at lines 236-238 runs only when `shutil.move` fails. -/

structure FsWorld where
  sitemap : Option String
  tmp : Option String
  deriving DecidableEq

/-- Whether writing the serialized document into the temporary file runs to
completion, or raises after `written` characters (e.g. disk full). -/
inductive WriteOutcome where
  | success
  | failure (written : String)
  deriving DecidableEq

/-- Whether `shutil.move` succeeds. -/
inductive MoveOutcome where
  | success
  | failure
  deriving DecidableEq

/-- Lines 189-239: create the temporary file in the target directory, write
the document into it, then move it over the sitemap path.  A write failure
propagates out of the `with` block with the temporary file left behind
(delete=False, and no cleanup on that path); a move failure deletes the
temporary file and re-raises; on success the sitemap is replaced and no
temporary file remains. -/
def persist (w : FsWorld) (content : String) (wr : WriteOutcome)
    (mv : MoveOutcome) : FsWorld × Except Unit Unit :=
  match wr with
  | .failure written => ({ w with tmp := some written }, .error ())
  | .success =>
    match mv with
    | .success => ({ sitemap := some content, tmp := none }, .ok ())
    | .failure => ({ w with tmp := none }, .error ())

/-- The spec's counting rule (§4.2): one increment per field created, one
per lastmod value that differs from its previous value; overwrites of an
existing priority/changefreq are not counted.  Stated from the spec's words
for comparison with the counter computed by `processEntry`. -/
def countSpec (e : UrlEntry) (path : String) (newDate : String) : Nat :=
  (match e.lastmod with
   | none => 1
   | some old => if old ≠ some newDate then 1 else 0) +
  (if e.priority = none ∧ (PRIORITY_MAP path).isSome then 1 else 0) +
  (if e.changefreq = none ∧ (CHANGEFREQ_MAP path).isSome then 1 else 0)

/-! ## Concrete sample data

A sample external world and sample entries, used to instantiate the
theorems on concrete inputs: the template file is tracked in git with last
commit date 2025-01-15 09:00:00 +0000, exists on disk with mtime date
2025-01-10, and the current date is 2026-10-12. -/

def exEnv : EntryEnv :=
  ⟨.success "2025-01-15 09:00:00 +0000\n", ⟨.present ⟨2025, 1, 10⟩, ⟨2026, 10, 12⟩⟩⟩

def exGenv : String → EntryEnv := fun _ => exEnv

/-- A root entry with no `lastmod`, `changefreq` or `priority`. -/
def exRootEntry : UrlEntry :=
  ⟨some (some "https://yourdomainname.com/"), none, none, none⟩

/-- An entry whose `loc` does not contain the domain substring. -/
def exOtherEntry : UrlEntry :=
  ⟨some (some "https://othersite.org/"), some (some "2020-01-01"), none, none⟩

/-- An entry whose extracted path has no route mapping. -/
def exUnmappedEntry : UrlEntry :=
  ⟨some (some "https://yourdomainname.com/about"), none, none, none⟩

/-! # Supporting lemmas -/

theorem escapeL_cons (c : Char) (l : List Char) :
    escapeL (c :: l) = escapeCharL c ++ escapeL l := by
  simp [escapeL]

theorem unescapeGo_cons_ne (c : Char) (rest : List Char) (h : c ≠ '&') :
    unescapeGo (c :: rest) 0 = c :: unescapeGo rest 0 := by
  rw [unescapeGo]
  exact if_neg h

theorem unescapeGo_amp (t : List Char) :
    unescapeGo ('&' :: 'a' :: 'm' :: 'p' :: ';' :: t) 0 = '&' :: unescapeGo t 0 := by
  simp [unescapeGo, List.isPrefixOf]

theorem unescapeGo_lt (t : List Char) :
    unescapeGo ('&' :: 'l' :: 't' :: ';' :: t) 0 = '<' :: unescapeGo t 0 := by
  simp [unescapeGo, List.isPrefixOf]

theorem unescapeGo_gt (t : List Char) :
    unescapeGo ('&' :: 'g' :: 't' :: ';' :: t) 0 = '>' :: unescapeGo t 0 := by
  simp [unescapeGo, List.isPrefixOf]

/-- Decoding inverts escaping, character-list level. -/
theorem unescapeL_escapeL (l : List Char) : unescapeL (escapeL l) = l := by
  unfold unescapeL
  induction l with
  | nil => rfl
  | cons c l ih =>
    rw [escapeL_cons]
    by_cases h1 : c = '&'
    · subst h1
      rw [show escapeCharL '&' = ['&', 'a', 'm', 'p', ';'] from rfl]
      simp only [List.cons_append, List.nil_append]
      rw [unescapeGo_amp, ih]
    · by_cases h2 : c = '<'
      · subst h2
        rw [show escapeCharL '<' = ['&', 'l', 't', ';'] from rfl]
        simp only [List.cons_append, List.nil_append]
        rw [unescapeGo_lt, ih]
      · by_cases h3 : c = '>'
        · subst h3
          rw [show escapeCharL '>' = ['&', 'g', 't', ';'] from rfl]
          simp only [List.cons_append, List.nil_append]
          rw [unescapeGo_gt, ih]
        · rw [show escapeCharL c = [c] by simp [escapeCharL, h1, h2, h3]]
          rw [List.singleton_append, unescapeGo_cons_ne c _ h1, ih]

/-- Decoding inverts escaping: re-parsing an escaped text yields the
original literal value. -/
theorem unescape_escape (s : String) : unescape (escape s) = s := by
  cases s with
  | mk data =>
    show String.mk (unescapeL (escapeL data)) = String.mk data
    rw [unescapeL_escapeL]

theorem escapeCharL_ne_nil (c : Char) : escapeCharL c ≠ [] := by
  unfold escapeCharL
  split_ifs <;> simp

theorem escapeL_ne_nil (c : Char) (l : List Char) : escapeL (c :: l) ≠ [] := by
  rw [escapeL_cons]
  intro h
  exact escapeCharL_ne_nil c (List.append_eq_nil.mp h).1

/-- Escaping a non-empty text yields a non-empty text. -/
theorem escape_ne_empty (s : String) (h : s ≠ "") : escape s ≠ "" := by
  cases s with
  | mk data =>
    cases data with
    | nil => exact absurd rfl h
    | cons c l =>
      show String.mk (escapeL (c :: l)) ≠ String.mk []
      intro he
      exact escapeL_ne_nil c l (congrArg String.data he)

theorem count_escapeCharL_lt (c : Char) : (escapeCharL c).count '<' = 0 := by
  unfold escapeCharL
  split_ifs with h1 h2 h3 <;> simp_all [List.count_cons, List.count_singleton]

theorem count_escapeCharL_gt (c : Char) : (escapeCharL c).count '>' = 0 := by
  unfold escapeCharL
  split_ifs with h1 h2 h3 <;> simp_all [List.count_cons, List.count_singleton]

theorem count_escapeCharL_quote (c : Char) :
    (escapeCharL c).count '"' = ([c] : List Char).count '"' := by
  unfold escapeCharL
  split_ifs with h1 h2 h3 <;> simp_all [List.count_cons, List.count_singleton]

theorem count_escapeCharL_apos (c : Char) :
    (escapeCharL c).count aposChar = ([c] : List Char).count aposChar := by
  unfold escapeCharL
  split_ifs with h1 h2 h3 <;>
    simp_all [List.count_cons, List.count_singleton, aposChar]

/-- No literal `<` remains in escaped output. -/
theorem count_escapeL_lt (l : List Char) : (escapeL l).count '<' = 0 := by
  induction l with
  | nil => rfl
  | cons c l ih => rw [escapeL_cons, List.count_append, count_escapeCharL_lt, ih]

/-- No literal `>` remains in escaped output. -/
theorem count_escapeL_gt (l : List Char) : (escapeL l).count '>' = 0 := by
  induction l with
  | nil => rfl
  | cons c l ih => rw [escapeL_cons, List.count_append, count_escapeCharL_gt, ih]

/-- Every `"` of the input survives escaping literally. -/
theorem count_escapeL_quote (l : List Char) :
    (escapeL l).count '"' = l.count '"' := by
  induction l with
  | nil => rfl
  | cons c l ih =>
    rw [escapeL_cons, List.count_append, count_escapeCharL_quote, ih,
        List.count_singleton, List.count_cons]
    omega

/-- Every apostrophe of the input survives escaping literally. -/
theorem count_escapeL_apos (l : List Char) :
    (escapeL l).count aposChar = l.count aposChar := by
  induction l with
  | nil => rfl
  | cons c l ih =>
    rw [escapeL_cons, List.count_append, count_escapeCharL_apos, ih,
        List.count_singleton, List.count_cons]
    omega

theorem digitChar_isDigit (n : Nat) : (digitChar n).isDigit = true := by
  unfold digitChar
  have h : n % 10 < 10 := Nat.mod_lt _ (by norm_num)
  set m := n % 10 with hm
  interval_cases m <;> decide

theorem data_format (d : Date) :
    (Date.format d).data =
      [digitChar (d.year / 1000), digitChar (d.year / 100), digitChar (d.year / 10),
       digitChar d.year, '-', digitChar (d.month / 10), digitChar d.month, '-',
       digitChar (d.day / 10), digitChar d.day] := by
  simp [Date.format, format4, format2, String.data_append]

/-- The date rendering always has the `YYYY-MM-DD` shape. -/
theorem isYYYYMMDD_format (d : Date) : isYYYYMMDD (Date.format d) = true := by
  rw [isYYYYMMDD, data_format]
  simp [digitChar_isDigit]

theorem updateLastmod_fields (e : UrlEntry) (d : String) :
    (updateLastmod e d).1 = { e with lastmod := some (some d) } := by
  unfold updateLastmod
  cases e.lastmod <;> rfl

theorem updatePriority_loc (e : UrlEntry) (p : String) :
    ((updatePriority e p).1).loc = e.loc ∧
    ((updatePriority e p).1).lastmod = e.lastmod ∧
    ((updatePriority e p).1).changefreq = e.changefreq := by
  unfold updatePriority
  cases e.priority <;> cases PRIORITY_MAP p <;> simp

theorem updateChangefreq_loc (e : UrlEntry) (p : String) :
    ((updateChangefreq e p).1).loc = e.loc ∧
    ((updateChangefreq e p).1).lastmod = e.lastmod ∧
    ((updateChangefreq e p).1).priority = e.priority := by
  unfold updateChangefreq
  cases e.changefreq <;> cases CHANGEFREQ_MAP p <;> simp

/-- A successful entry update never changes `loc`, and rules out the crash
case (a `<loc>` element with no text). -/
theorem processEntry_ok_inv (u : Bool) (g : String → EntryEnv) (e e' : UrlEntry)
    (c w : Nat) (h : processEntry u g e = .ok (e', c, w)) :
    e'.loc = e.loc ∧ e.loc ≠ some none := by
  unfold processEntry at h
  split at h
  · injection h with h; injection h with h1 h2; subst h1; simp_all
  · exact absurd h (by simp)
  · rename_i t he
    refine ⟨?_, by simp [he]⟩
    split at h
    · injection h with h; injection h with h1 h2; subst h1; rfl
    · split at h
      · injection h with h; injection h with h1 h2; subst h1; rfl
      · simp only [] at h
        injection h with h; injection h with h1 h2; subst h1
        rw [(updateChangefreq_loc _ _).1, (updatePriority_loc _ _).1,
            updateLastmod_fields, he]

/-- A successful run relates input and output entries pointwise. -/
theorem processEntries_ok_forall2 (u : Bool) (g : String → EntryEnv) :
    ∀ (es es' : List UrlEntry) (c w : Nat),
      processEntries u g es = .ok (es', c, w) →
      List.Forall₂ (fun e e' => ∃ ci wi, processEntry u g e = .ok (e', ci, wi)) es es'
  | [], es', c, w, h => by
    unfold processEntries at h
    injection h with h
    injection h with h1 h2
    subst h1
    exact List.Forall₂.nil
  | e :: es, es', c, w, h => by
    unfold processEntries at h
    cases h1 : processEntry u g e with
    | error v => rw [h1] at h; simp [Bind.bind, Except.bind] at h
    | ok r =>
      obtain ⟨e1, c1, w1⟩ := r
      rw [h1] at h
      cases h2 : processEntries u g es with
      | error v => rw [h2] at h; simp [Bind.bind, Except.bind] at h
      | ok r2 =>
        obtain ⟨es1, cs, ws⟩ := r2
        rw [h2] at h
        simp only [Bind.bind, Except.bind] at h
        injection h with h
        injection h with ha hb
        subst ha
        exact List.Forall₂.cons ⟨c1, w1, h1⟩ (processEntries_ok_forall2 u g es es1 cs ws h2)

theorem forall2_mem_right {α β : Type} {R : α → β → Prop} {l₁ : List α}
    {l₂ : List β} (h : List.Forall₂ R l₁ l₂) {b : β} (hb : b ∈ l₂) :
    ∃ a ∈ l₁, R a b := by
  induction h with
  | nil => cases hb
  | cons hR hF ih =>
    rcases List.mem_cons.mp hb with hb | hb
    · subst hb; exact ⟨_, List.mem_cons_self _ _, hR⟩
    · obtain ⟨a, ha, hr⟩ := ih hb
      exact ⟨a, List.mem_cons_of_mem _ ha, hr⟩

/-- On a mapped entry, the update step yields exactly the three field
updates in source order and the counter increment demanded by the spec's
counting rule. -/
theorem processEntry_mapped (u : Bool) (g : String → EntryEnv) (e : UrlEntry)
    (t path file : String)
    (h1 : e.loc = some (some t)) (h2 : extractPath (pyStrip t) = some path)
    (h3 : ROUTE_TO_FILE path = some file) :
    processEntry u g e =
      .ok ((updateChangefreq
              (updatePriority
                (updateLastmod e (resolveLastmod u (g file)).1).1 path).1 path).1,
           countSpec e path (resolveLastmod u (g file)).1, 0) := by
  obtain ⟨lo, lm, cf, pr⟩ := e
  simp only at h1
  subst h1
  simp only [processEntry, h2, h3]
  rcases lm with _ | old <;> rcases cf with _ | oldcf <;> rcases pr with _ | oldpr <;>
    rcases hp : PRIORITY_MAP path with _ | pv <;>
    rcases hc : CHANGEFREQ_MAP path with _ | cv <;>
    simp [updateLastmod, updatePriority, updateChangefreq, countSpec, hp, hc]

theorem pyStripL_prefix (l : List Char) :
    pyStripL l <+: l.dropWhile pyIsSpace := by
  unfold pyStripL
  have h := List.dropWhile_suffix (l := (l.dropWhile pyIsSpace).reverse) pyIsSpace
  have := List.reverse_prefix.mpr h
  simpa using this

theorem pyStripL_head_not_space (l : List Char) (c : Char) (t : List Char)
    (h : pyStripL l = c :: t) : pyIsSpace c = false := by
  have hpre := pyStripL_prefix l
  rw [h] at hpre
  obtain ⟨r, hr⟩ := hpre
  have hne : l.dropWhile pyIsSpace ≠ [] := by
    rw [← hr]; simp
  have hnot := List.head_dropWhile_not pyIsSpace l hne
  have h9 : (List.dropWhile pyIsSpace l).head? = some c := by rw [← hr]; simp
  have h10 := List.head?_eq_head hne
  rw [h9] at h10
  injection h10 with h10
  rw [h10]
  exact hnot

/-- A non-empty stripped output has a non-empty first token. -/
theorem firstToken_ne_empty (s : String) (h : pyStripL s.data ≠ []) :
    firstToken s ≠ "" := by
  unfold firstToken
  cases hx : pyStripL s.data with
  | nil => exact absurd hx h
  | cons c t =>
    have hc := pyStripL_head_not_space s.data c t hx
    rw [List.takeWhile_cons_of_pos (by simp [hc])]
    intro he
    exact List.cons_ne_nil _ _ (congrArg String.data he)

/-- The first token contains no whitespace. -/
theorem firstToken_no_space (s : String) (c : Char)
    (hc : c ∈ (firstToken s).data) : pyIsSpace c = false := by
  have := List.mem_takeWhile_imp hc
  simpa using this

/-- The first token is an initial segment of the stripped output. -/
theorem firstToken_prefix (s : String) :
    (firstToken s).data <+: pyStripL s.data :=
  List.takeWhile_prefix _

/-- An optional field is emitted only with non-empty text. -/
theorem emitField_ne_empty (f : Option (Option String)) (v : String)
    (h : emitField f = some v) : v ≠ "" := by
  match f with
  | none => exact absurd h (by simp [emitField])
  | some none => exact absurd h (by simp [emitField])
  | some (some t) =>
    unfold emitField at h
    simp only [] at h
    by_cases ht : t = ""
    · rw [if_pos ht] at h; cases h
    · rw [if_neg ht] at h
      injection h with h
      rw [← h]
      exact escape_ne_empty t ht

/-! # The claims -/

/-- C4 (amended): when the final move fails, the temporary file is deleted,
the original sitemap content is untouched byte for byte, and the failure
propagates; when the temporary-file write itself is interrupted, the
original is likewise untouched and the failure propagates, but the
temporary file remains in the target directory. -/
theorem C4_persistence (w : FsWorld) (content written : String) (mv : MoveOutcome) :
    (persist w content .success .failure).1.sitemap = w.sitemap ∧
    (persist w content .success .failure).1.tmp = none ∧
    (persist w content .success .failure).2 = .error () ∧
    (persist w content (.failure written) mv).1.sitemap = w.sitemap ∧
    (persist w content (.failure written) mv).2 = .error () ∧
    (persist w content (.failure written) mv).1.tmp = some written :=
  ⟨rfl, rfl, rfl, rfl, rfl, rfl⟩

/-- C4 counterexample: a persistence run interrupted during the
temporary-file write (before the replacement step) leaves the original
untouched but leaves a temporary file behind, contradicting the claim that
no temporary file remains. -/
theorem C4_counterexample :
    (persist ⟨some "old", none⟩ "new" (.failure "par") .success).2 = .error () ∧
    (persist ⟨some "old", none⟩ "new" (.failure "par") .success).1.sitemap = some "old" ∧
    (persist ⟨some "old", none⟩ "new" (.failure "par") .success).1.tmp = some "par" :=
  ⟨rfl, rfl, rfl⟩

/-- C5: filesystem date resolution is total and always yields a
`YYYY-MM-DD` string — the file's mtime date when the file exists, today's
date when it is absent or unreadable; and in git mode an untracked file
that exists on disk resolves to its filesystem date tagged as a non-git
source. -/
theorem C5_file_lastmod (env : FsEnv) (ev : EntryEnv) (T : Date)
    (hfs : ev.fs.state = .present T)
    (hgit : get_git_lastmod ev.git = (none, some false)) :
    isYYYYMMDD (get_file_lastmod env) = true ∧
    (∀ d, env.state = .present d → get_file_lastmod env = d.format) ∧
    (env.state = .absent ∨ env.state = .oserror → get_file_lastmod env = env.today.format) ∧
    resolveLastmod false ev = (T.format, "filesystem (not in git)") := by
  refine ⟨?_, ?_, ?_, ?_⟩
  · unfold get_file_lastmod
    cases env.state <;> exact isYYYYMMDD_format _
  · intro d hd
    unfold get_file_lastmod
    rw [hd]
  · intro hd
    unfold get_file_lastmod
    rcases hd with hd | hd <;> rw [hd]
  · unfold resolveLastmod
    rw [hgit]
    unfold get_file_lastmod
    rw [hfs]
    simp

theorem C5_witness :
    (⟨.calledProcessError, ⟨.present ⟨2025, 1, 10⟩, ⟨2026, 10, 12⟩⟩⟩ : EntryEnv).fs.state =
        .present ⟨2025, 1, 10⟩ ∧
      (isYYYYMMDD (get_file_lastmod ⟨.absent, ⟨2026, 10, 12⟩⟩) = true ∧
        (∀ d, (⟨.absent, ⟨2026, 10, 12⟩⟩ : FsEnv).state = .present d →
          get_file_lastmod ⟨.absent, ⟨2026, 10, 12⟩⟩ = d.format) ∧
        ((⟨.absent, ⟨2026, 10, 12⟩⟩ : FsEnv).state = .absent ∨
            (⟨.absent, ⟨2026, 10, 12⟩⟩ : FsEnv).state = .oserror →
          get_file_lastmod ⟨.absent, ⟨2026, 10, 12⟩⟩ = (⟨2026, 10, 12⟩ : Date).format) ∧
        resolveLastmod false ⟨.calledProcessError, ⟨.present ⟨2025, 1, 10⟩, ⟨2026, 10, 12⟩⟩⟩ =
          ((⟨2025, 1, 10⟩ : Date).format, "filesystem (not in git)")) :=
  ⟨rfl, C5_file_lastmod ⟨.absent, ⟨2026, 10, 12⟩⟩
    ⟨.calledProcessError, ⟨.present ⟨2025, 1, 10⟩, ⟨2026, 10, 12⟩⟩⟩ ⟨2025, 1, 10⟩ rfl rfl⟩

/-- C6: git date resolution returns (absent, false) on a failed command or
empty output, (absent, unknown) when git itself cannot be invoked, and
otherwise the first whitespace-delimited token of the output together with
tracked = true; the token is non-empty, contains no whitespace and is an
initial segment of the stripped output. -/
theorem C6_git_resolution (s : String) :
    get_git_lastmod .calledProcessError = (none, some false) ∧
    get_git_lastmod .fileNotFound = (none, none) ∧
    (pyStripL s.data = [] → get_git_lastmod (.success s) = (none, some false)) ∧
    (pyStripL s.data ≠ [] →
      get_git_lastmod (.success s) = (some (firstToken s), some true) ∧
      firstToken s ≠ "" ∧
      (∀ c ∈ (firstToken s).data, pyIsSpace c = false) ∧
      (firstToken s).data <+: pyStripL s.data) := by
  refine ⟨rfl, rfl, ?_, ?_⟩
  · intro h
    unfold get_git_lastmod
    simp only []
    rw [if_neg (by simp [h])]
  · intro h
    refine ⟨?_, firstToken_ne_empty s h, fun c hc => firstToken_no_space s c hc,
      firstToken_prefix s⟩
    unfold get_git_lastmod
    simp only []
    rw [if_pos h]

theorem C6_witness :
    pyStripL ("2025-01-15 09:00:00 +0000\n" : String).data ≠ [] ∧
      (get_git_lastmod (.success "2025-01-15 09:00:00 +0000\n") =
          (some (firstToken "2025-01-15 09:00:00 +0000\n"), some true) ∧
        firstToken "2025-01-15 09:00:00 +0000\n" ≠ "" ∧
        (∀ c ∈ (firstToken "2025-01-15 09:00:00 +0000\n").data, pyIsSpace c = false) ∧
        (firstToken "2025-01-15 09:00:00 +0000\n").data <+:
          pyStripL ("2025-01-15 09:00:00 +0000\n" : String).data) :=
  ⟨by decide, (C6_git_resolution "2025-01-15 09:00:00 +0000\n").2.2.2 (by decide)⟩

/-- C8: an entry whose loc lacks the domain substring is skipped with no
mutation, no counter change and no warning; an entry whose extracted path
has no route mapping is skipped with no mutation, no counter change and
exactly one warning. -/
theorem C8_skip (useFs : Bool) (genv : String → EntryEnv) (e : UrlEntry) (t : String)
    (hloc : e.loc = some (some t)) :
    (extractPath (pyStrip t) = none → processEntry useFs genv e = .ok (e, 0, 0)) ∧
    (∀ path, extractPath (pyStrip t) = some path → ROUTE_TO_FILE path = none →
      processEntry useFs genv e = .ok (e, 0, 1)) := by
  constructor
  · intro h
    simp [processEntry, hloc, h]
  · intro path h1 h2
    simp [processEntry, hloc, h1, h2]

theorem C8_witness :
    processEntry false exGenv exOtherEntry = .ok (exOtherEntry, 0, 0) ∧
    processEntry false exGenv exUnmappedEntry = .ok (exUnmappedEntry, 0, 1) :=
  ⟨(C8_skip false exGenv exOtherEntry "https://othersite.org/" rfl).1 (by decide),
   (C8_skip false exGenv exUnmappedEntry "https://yourdomainname.com/about" rfl).2
     "/about" (by decide) (by decide)⟩

/-- C9: a document containing a `<url>` whose `<loc>` element is present
with no text makes the whole run fail before anything is written, even
though the other entries are well-formed, while a `<url>` with no `<loc>`
element at all is silently skipped, unchanged, and produces no output
block. -/
theorem C9_loc_none_aborts (useFilesystem : Bool) (genv : String → EntryEnv) :
    update_sitemap useFilesystem genv
        [exRootEntry, ⟨some none, none, none, none⟩] = .error () ∧
    processEntry useFilesystem genv ⟨none, some (some "x"), some (some "y"), some (some "z")⟩ =
      .ok (⟨none, some (some "x"), some (some "y"), some (some "z")⟩, 0, 0) ∧
    serializeEntry ⟨none, some (some "x"), some (some "y"), some (some "z")⟩ = none := by
  refine ⟨?_, rfl, rfl⟩
  have h1 := processEntry_mapped useFilesystem genv exRootEntry
    "https://yourdomainname.com/" "/" "templates/index.html" rfl (by decide) (by decide)
  have h2 : processEntry useFilesystem genv (⟨some none, none, none, none⟩ : UrlEntry) =
      .error () := rfl
  unfold update_sitemap processEntries
  rw [h1]
  simp only [Bind.bind, Except.bind]
  unfold processEntries
  rw [h2]
  simp [Bind.bind, Except.bind]

/-- C10: a loc that is exactly the domain with no trailing path component
normalizes to the root path "/", and the entry is processed identically to
its trailing-slash form for route, priority and changefreq lookup — the
results differ only in the loc carried through. -/
theorem C10_domain_only (useFilesystem : Bool) (genv : String → EntryEnv)
    (lm cf pr : Option (Option String)) :
    extractPath (pyStrip "https://yourdomainname.com") = some "/" ∧
    extractPath (pyStrip "https://yourdomainname.com/") = some "/" ∧
    processEntry useFilesystem genv ⟨some (some "https://yourdomainname.com"), lm, cf, pr⟩ =
      (processEntry useFilesystem genv
          ⟨some (some "https://yourdomainname.com/"), lm, cf, pr⟩).map
        (fun r => (⟨some (some "https://yourdomainname.com"),
                    r.1.lastmod, r.1.changefreq, r.1.priority⟩, r.2)) := by
  refine ⟨by decide, by decide, ?_⟩
  have e1 := processEntry_mapped useFilesystem genv
    ⟨some (some "https://yourdomainname.com"), lm, cf, pr⟩
    "https://yourdomainname.com" "/" "templates/index.html" rfl (by decide) (by decide)
  have e2 := processEntry_mapped useFilesystem genv
    ⟨some (some "https://yourdomainname.com/"), lm, cf, pr⟩
    "https://yourdomainname.com/" "/" "templates/index.html" rfl (by decide) (by decide)
  rw [e1, e2]
  simp only [Except.map]
  congr 1
  rw [updateLastmod_fields, updateLastmod_fields]
  have hp : PRIORITY_MAP "/" = some "1.0" := by decide
  have hc : CHANGEFREQ_MAP "/" = some "weekly" := by decide
  rcases pr with _ | pv <;> rcases cf with _ | cv <;>
    simp [updatePriority, updateChangefreq, countSpec, hp, hc]

/-- C3: on a mapped entry the counter increments exactly once per created
field (lastmod, priority, changefreq) and once per lastmod whose new value
differs from the old; priority/changefreq overwrites are never counted
(the counting rule `countSpec`); and in the concrete scenario — root entry
with no lastmod, tracked file with last commit date
2025-01-15 09:00:00 +0000 — the entry gains lastmod 2025-01-15, priority
1.0 and changefreq weekly, and the counter equals 3. -/
theorem C3_counter (u : Bool) (g : String → EntryEnv) (e : UrlEntry)
    (t path file : String)
    (h1 : e.loc = some (some t)) (h2 : extractPath (pyStrip t) = some path)
    (h3 : ROUTE_TO_FILE path = some file) :
    (∃ e', processEntry u g e =
      .ok (e', countSpec e path (resolveLastmod u (g file)).1, 0)) ∧
    update_sitemap false exGenv [exRootEntry] =
      .ok ([⟨"https://yourdomainname.com/", some "2025-01-15",
             some "weekly", some "1.0"⟩], 3) :=
  ⟨⟨_, processEntry_mapped u g e t path file h1 h2 h3⟩, by rfl⟩

theorem C3_witness :
    (∃ e', processEntry false exGenv exRootEntry =
      .ok (e', countSpec exRootEntry "/" (resolveLastmod false (exGenv "templates/index.html")).1, 0)) ∧
    update_sitemap false exGenv [exRootEntry] =
      .ok ([⟨"https://yourdomainname.com/", some "2025-01-15",
             some "weekly", some "1.0"⟩], 3) :=
  C3_counter false exGenv exRootEntry "https://yourdomainname.com/" "/"
    "templates/index.html" rfl (by decide) (by decide)

/-- C2 (amended): escaping replaces every `&`, `<`, `>` (no literal `<` or
`>` remains), leaves `"` and the apostrophe literally in place (their
occurrence counts are unchanged), and re-parsing the written text decodes
back to the original literal value; a non-empty optional field is emitted
exactly as its escaped text. -/
theorem C2_escape_roundtrip (s : String) :
    unescape (escape s) = s ∧
    (escape s).data.count '<' = 0 ∧
    (escape s).data.count '>' = 0 ∧
    (escape s).data.count '"' = s.data.count '"' ∧
    (escape s).data.count aposChar = s.data.count aposChar ∧
    (s ≠ "" → emitField (some (some s)) = some (escape s)) := by
  refine ⟨unescape_escape s, count_escapeL_lt s.data, count_escapeL_gt s.data,
    count_escapeL_quote s.data, count_escapeL_apos s.data, ?_⟩
  intro h
  simp [emitField, h]

theorem C2_witness :
    ("a&b\"c" : String) ≠ "" ∧
      (unescape (escape "a&b\"c") = "a&b\"c" ∧
        (escape "a&b\"c").data.count '<' = 0 ∧
        (escape "a&b\"c").data.count '>' = 0 ∧
        (escape "a&b\"c").data.count '"' = ("a&b\"c" : String).data.count '"' ∧
        (escape "a&b\"c").data.count aposChar = ("a&b\"c" : String).data.count aposChar ∧
        (("a&b\"c" : String) ≠ "" → emitField (some (some "a&b\"c")) = some (escape "a&b\"c"))) :=
  ⟨by decide, C2_escape_roundtrip "a&b\"c"⟩

/-- C2 counterexample: serialization does NOT escape all five XML special
characters — a value containing `"` (or an apostrophe) is written with the
character left literally in place. -/
theorem C2_counterexample :
    ("a\"b" : String).data.count '"' = 1 ∧
    escape "a\"b" = "a\"b" ∧
    (String.mk ['x', aposChar]).data.count aposChar = 1 ∧
    escape (String.mk ['x', aposChar]) = String.mk ['x', aposChar] := by
  decide

/-- C1: every `<url>` block written by a successful run has a non-empty loc
text, and lastmod/changefreq/priority lines appear only with non-empty
text.  The hypothesis `hparsed` reflects the XML parser: ElementTree never
produces an element whose text is the empty string (it is `None` instead). -/
theorem C1_output_invariant (useFilesystem : Bool) (genv : String → EntryEnv)
    (es : List UrlEntry) (out : List EmittedUrl) (cnt : Nat)
    (hparsed : ∀ e ∈ es, e.loc ≠ some (some ""))
    (h : update_sitemap useFilesystem genv es = .ok (out, cnt)) :
    ∀ u ∈ out, u.loc ≠ "" ∧
      (∀ v, u.lastmod = some v → v ≠ "") ∧
      (∀ v, u.changefreq = some v → v ≠ "") ∧
      (∀ v, u.priority = some v → v ≠ "") := by
  unfold update_sitemap at h
  cases hp : processEntries useFilesystem genv es with
  | error v => rw [hp] at h; simp [Bind.bind, Except.bind] at h
  | ok r =>
    obtain ⟨es1, c, w⟩ := r
    rw [hp] at h
    simp only [Bind.bind, Except.bind] at h
    injection h with h
    have hout : serializeDoc es1 = out := congrArg Prod.fst h
    intro u hu
    rw [← hout] at hu
    obtain ⟨e', he', hser⟩ := List.mem_filterMap.mp hu
    have F := processEntries_ok_forall2 _ _ _ _ _ _ hp
    obtain ⟨e, he, ci, wi, hpe⟩ := forall2_mem_right F he'
    obtain ⟨hl1, hl2⟩ := processEntry_ok_inv _ _ _ _ _ _ hpe
    have hl3 := hparsed e he
    unfold serializeEntry at hser
    match hloc : e'.loc with
    | none => rw [hloc] at hser; cases hser
    | some none =>
      rw [hloc] at hl1
      exact absurd hl1.symm hl2
    | some (some tt) =>
      have htt : tt ≠ "" := by
        intro h''
        rw [hloc, h''] at hl1
        exact hl3 hl1.symm
      rw [hloc] at hser
      simp only [] at hser
      injection hser with hser
      subst hser
      refine ⟨?_, ?_, ?_, ?_⟩
      · show (if tt = "" then "" else escape tt) ≠ ""
        rw [if_neg htt]
        exact escape_ne_empty tt htt
      · exact fun v hv => emitField_ne_empty _ v hv
      · exact fun v hv => emitField_ne_empty _ v hv
      · exact fun v hv => emitField_ne_empty _ v hv

theorem serializeDoc_map_loc :
    ∀ (es es1 : List UrlEntry),
      List.Forall₂ (fun e e' => e'.loc = e.loc) es es1 →
      (∀ e ∈ es, ∃ t, e.loc = some (some t)) →
      (serializeDoc es1).map (fun u => some (unescape u.loc)) =
        es.map (fun e => e.loc.join) ∧
      (serializeDoc es1).length = es.length := by
  intro es es1 hF
  induction hF with
  | nil => intro _; exact ⟨rfl, rfl⟩
  | @cons e e' tl tl1 hR hF ih =>
    intro hloc
    obtain ⟨t, ht⟩ := hloc e (List.mem_cons_self _ _)
    have h1 : e'.loc = some (some t) := by rw [hR, ht]
    have hser : serializeEntry e' =
        some ⟨if t = "" then "" else escape t, emitField e'.lastmod,
              emitField e'.changefreq, emitField e'.priority⟩ := by
      unfold serializeEntry
      rw [h1]
    have htl := ih (fun x hx => hloc x (List.mem_cons_of_mem _ hx))
    unfold serializeDoc
    rw [List.filterMap_cons, hser]
    unfold serializeDoc at htl
    constructor
    · rw [List.map_cons, htl.1, List.map_cons]
      congr 1
      rw [ht]
      by_cases hte : t = ""
      · subst hte
        rw [if_pos rfl]
        rfl
      · rw [if_neg hte]
        simp [unescape_escape]
    · rw [List.length_cons, List.length_cons, htl.2]

/-- C7: a successful run writes exactly one `<url>` block per input entry,
in the input order, with the written (escaped) loc decoding back to the
input entry's loc text — field creation and mutation never reorder, drop
or duplicate entries. -/
theorem C7_order (useFilesystem : Bool) (genv : String → EntryEnv)
    (es : List UrlEntry) (out : List EmittedUrl) (cnt : Nat)
    (hloc : ∀ e ∈ es, ∃ t, e.loc = some (some t))
    (h : update_sitemap useFilesystem genv es = .ok (out, cnt)) :
    out.map (fun u => some (unescape u.loc)) = es.map (fun e => e.loc.join) ∧
    out.length = es.length := by
  unfold update_sitemap at h
  cases hp : processEntries useFilesystem genv es with
  | error v => rw [hp] at h; simp [Bind.bind, Except.bind] at h
  | ok r =>
    obtain ⟨es1, c, w⟩ := r
    rw [hp] at h
    simp only [Bind.bind, Except.bind] at h
    injection h with h
    have hout : serializeDoc es1 = out := congrArg Prod.fst h
    have F := (processEntries_ok_forall2 _ _ _ _ _ _ hp).imp
      (fun a b hab => by
        obtain ⟨ci, wi, hpe⟩ := hab
        exact (processEntry_ok_inv _ _ _ _ _ _ hpe).1)
    rw [← hout]
    exact serializeDoc_map_loc es es1 F hloc

theorem C1_witness :
    (⟨"https://yourdomainname.com/", some "2025-01-15", some "weekly",
       some "1.0"⟩ : EmittedUrl).loc ≠ "" ∧
      (∀ v, (⟨"https://yourdomainname.com/", some "2025-01-15", some "weekly",
               some "1.0"⟩ : EmittedUrl).lastmod = some v → v ≠ "") ∧
      (∀ v, (⟨"https://yourdomainname.com/", some "2025-01-15", some "weekly",
               some "1.0"⟩ : EmittedUrl).changefreq = some v → v ≠ "") ∧
      (∀ v, (⟨"https://yourdomainname.com/", some "2025-01-15", some "weekly",
               some "1.0"⟩ : EmittedUrl).priority = some v → v ≠ "") :=
  C1_output_invariant false exGenv [exRootEntry]
    [⟨"https://yourdomainname.com/", some "2025-01-15", some "weekly", some "1.0"⟩] 3
    (by decide) (by rfl)
    ⟨"https://yourdomainname.com/", some "2025-01-15", some "weekly", some "1.0"⟩
    (by decide)

theorem C7_witness :
    ([(⟨"https://yourdomainname.com/", some "2025-01-15", some "weekly",
        some "1.0"⟩ : EmittedUrl)].map (fun u => some (unescape u.loc)) =
      [exRootEntry].map (fun e => e.loc.join)) ∧
    ([(⟨"https://yourdomainname.com/", some "2025-01-15", some "weekly",
        some "1.0"⟩ : EmittedUrl)].length = [exRootEntry].length) :=
  C7_order false exGenv [exRootEntry]
    [⟨"https://yourdomainname.com/", some "2025-01-15", some "weekly", some "1.0"⟩] 3
    (by
      intro e he
      rw [List.mem_singleton.mp he]
      exact ⟨"https://yourdomainname.com/", rfl⟩)
    (by rfl)
